import Mathlib

/-!
Verification development for the tempest-exporter weather-station metric
exporter (src/main.go).  Go float64 observation values are modelled as
rationals (the claims under study involve only zero tests and value copying,
never float arithmetic); Go strings are modelled as Lean strings.
-/

namespace TempestExporter

/-- Typed observation data from a station, translated field by field from the
Go struct `observation` (src/main.go lines 53-107).  Every `float64` field
becomes a `Rat`; the two `string` fields stay `String`. -/
structure observation where
  AirDensity : Rat
  AirDensityIndoor : Rat
  AirTemperature : Rat
  AirTemperatureIndoor : Rat
  BarometricPressure : Rat
  BarometricPressureIndoor : Rat
  Brightness : Rat
  DeltaT : Rat
  DeltaTIndoor : Rat
  DewPoint : Rat
  DewPointIndoor : Rat
  FeelsLike : Rat
  FeelsLikeIndoor : Rat
  HeatIndex : Rat
  HeatIndexIndoor : Rat
  LightningStrikeCount : Rat
  LightningStrikeCountIndoor : Rat
  LightningStrikeCountLast1hr : Rat
  LightningStrikeCountLast1hrIndoor : Rat
  LightningStrikeCountLast3hr : Rat
  LightningStrikeCountLast3hrIndoor : Rat
  LightningStrikeLastDistance : Rat
  LightningStrikeLastDistanceIndoor : Rat
  LightningStrikeLastEpoch : Rat
  LightningStrikeLastEpochIndoor : Rat
  Precip : Rat
  PrecipAccumLast1hr : Rat
  PrecipAccumLocalDay : Rat
  PrecipAccumLocalYesterday : Rat
  PrecipAccumLocalYesterdayFinal : Rat
  PrecipAnalysisTypeYesterday : Rat
  PrecipMinutesLocalDay : Rat
  PrecipMinutesLocalYesterday : Rat
  PrecipMinutesLocalYesterdayFinal : Rat
  PressureTrend : String
  PressureTrendIndoor : String
  RelativeHumidity : Rat
  RelativeHumidityIndoor : Rat
  SeaLevelPressure : Rat
  SeaLevelPressureIndoor : Rat
  SolarRadiation : Rat
  StationPressure : Rat
  StationPressureIndoor : Rat
  Timestamp : Rat
  Uv : Rat
  WetBulbTemperature : Rat
  WetBulbTemperatureIndoor : Rat
  WindAvg : Rat
  WindChill : Rat
  WindChillIndoor : Rat
  WindDirection : Rat
  WindGust : Rat
  WindLull : Rat

/-- Two observations agreeing on every field are equal. -/
theorem observation.extAll {x y : observation}
    (e1 : x.AirDensity = y.AirDensity)
    (e2 : x.AirDensityIndoor = y.AirDensityIndoor)
    (e3 : x.AirTemperature = y.AirTemperature)
    (e4 : x.AirTemperatureIndoor = y.AirTemperatureIndoor)
    (e5 : x.BarometricPressure = y.BarometricPressure)
    (e6 : x.BarometricPressureIndoor = y.BarometricPressureIndoor)
    (e7 : x.Brightness = y.Brightness)
    (e8 : x.DeltaT = y.DeltaT)
    (e9 : x.DeltaTIndoor = y.DeltaTIndoor)
    (e10 : x.DewPoint = y.DewPoint)
    (e11 : x.DewPointIndoor = y.DewPointIndoor)
    (e12 : x.FeelsLike = y.FeelsLike)
    (e13 : x.FeelsLikeIndoor = y.FeelsLikeIndoor)
    (e14 : x.HeatIndex = y.HeatIndex)
    (e15 : x.HeatIndexIndoor = y.HeatIndexIndoor)
    (e16 : x.LightningStrikeCount = y.LightningStrikeCount)
    (e17 : x.LightningStrikeCountIndoor = y.LightningStrikeCountIndoor)
    (e18 : x.LightningStrikeCountLast1hr = y.LightningStrikeCountLast1hr)
    (e19 : x.LightningStrikeCountLast1hrIndoor = y.LightningStrikeCountLast1hrIndoor)
    (e20 : x.LightningStrikeCountLast3hr = y.LightningStrikeCountLast3hr)
    (e21 : x.LightningStrikeCountLast3hrIndoor = y.LightningStrikeCountLast3hrIndoor)
    (e22 : x.LightningStrikeLastDistance = y.LightningStrikeLastDistance)
    (e23 : x.LightningStrikeLastDistanceIndoor = y.LightningStrikeLastDistanceIndoor)
    (e24 : x.LightningStrikeLastEpoch = y.LightningStrikeLastEpoch)
    (e25 : x.LightningStrikeLastEpochIndoor = y.LightningStrikeLastEpochIndoor)
    (e26 : x.Precip = y.Precip)
    (e27 : x.PrecipAccumLast1hr = y.PrecipAccumLast1hr)
    (e28 : x.PrecipAccumLocalDay = y.PrecipAccumLocalDay)
    (e29 : x.PrecipAccumLocalYesterday = y.PrecipAccumLocalYesterday)
    (e30 : x.PrecipAccumLocalYesterdayFinal = y.PrecipAccumLocalYesterdayFinal)
    (e31 : x.PrecipAnalysisTypeYesterday = y.PrecipAnalysisTypeYesterday)
    (e32 : x.PrecipMinutesLocalDay = y.PrecipMinutesLocalDay)
    (e33 : x.PrecipMinutesLocalYesterday = y.PrecipMinutesLocalYesterday)
    (e34 : x.PrecipMinutesLocalYesterdayFinal = y.PrecipMinutesLocalYesterdayFinal)
    (e35 : x.PressureTrend = y.PressureTrend)
    (e36 : x.PressureTrendIndoor = y.PressureTrendIndoor)
    (e37 : x.RelativeHumidity = y.RelativeHumidity)
    (e38 : x.RelativeHumidityIndoor = y.RelativeHumidityIndoor)
    (e39 : x.SeaLevelPressure = y.SeaLevelPressure)
    (e40 : x.SeaLevelPressureIndoor = y.SeaLevelPressureIndoor)
    (e41 : x.SolarRadiation = y.SolarRadiation)
    (e42 : x.StationPressure = y.StationPressure)
    (e43 : x.StationPressureIndoor = y.StationPressureIndoor)
    (e44 : x.Timestamp = y.Timestamp)
    (e45 : x.Uv = y.Uv)
    (e46 : x.WetBulbTemperature = y.WetBulbTemperature)
    (e47 : x.WetBulbTemperatureIndoor = y.WetBulbTemperatureIndoor)
    (e48 : x.WindAvg = y.WindAvg)
    (e49 : x.WindChill = y.WindChill)
    (e50 : x.WindChillIndoor = y.WindChillIndoor)
    (e51 : x.WindDirection = y.WindDirection)
    (e52 : x.WindGust = y.WindGust)
    (e53 : x.WindLull = y.WindLull) : x = y := by
  cases x
  cases y
  simp only [observation.mk.injEq]
  exact ⟨e1, e2, e3, e4, e5, e6, e7, e8, e9, e10, e11, e12, e13, e14, e15, e16, e17, e18,
    e19, e20, e21, e22, e23, e24, e25, e26, e27, e28, e29, e30, e31, e32, e33, e34, e35,
    e36, e37, e38, e39, e40, e41, e42, e43, e44, e45, e46, e47, e48, e49, e50, e51, e52,
    e53⟩

/-- One step of the reflective loop in `mapIndoor` for a numeric field:
`if indoorValue.IsValid() && !indoorValue.IsZero() { set base := indoor }`.
Go `reflect.Value.IsZero` on a `float64` tests for the zero value. -/
def ov (base ind : Rat) : Rat := if ind = 0 then base else ind

/-- One step of the reflective loop in `mapIndoor` for a string field:
Go `reflect.Value.IsZero` on a `string` tests for the empty string, and the
reflective loop does not special-case strings. -/
def ovStr (base ind : String) : String := if ind = "" then base else ind

/-- `mapIndoor` (src/main.go lines 122-136): for every struct field `F` such
that a field named `F ++ "Indoor"` exists and holds a non-zero value, the
base field `F` is overwritten with that indoor value.  The reflective loop
visits fields in declaration order; since indoor-suffixed fields are never
themselves written (no field `F ++ "IndoorIndoor"` exists), the net effect is
the simultaneous per-field update written out here. -/
def mapIndoor (o : observation) : observation :=
  { o with
    AirDensity := ov o.AirDensity o.AirDensityIndoor
    AirTemperature := ov o.AirTemperature o.AirTemperatureIndoor
    BarometricPressure := ov o.BarometricPressure o.BarometricPressureIndoor
    DeltaT := ov o.DeltaT o.DeltaTIndoor
    DewPoint := ov o.DewPoint o.DewPointIndoor
    FeelsLike := ov o.FeelsLike o.FeelsLikeIndoor
    HeatIndex := ov o.HeatIndex o.HeatIndexIndoor
    LightningStrikeCount := ov o.LightningStrikeCount o.LightningStrikeCountIndoor
    LightningStrikeCountLast1hr :=
      ov o.LightningStrikeCountLast1hr o.LightningStrikeCountLast1hrIndoor
    LightningStrikeCountLast3hr :=
      ov o.LightningStrikeCountLast3hr o.LightningStrikeCountLast3hrIndoor
    LightningStrikeLastDistance :=
      ov o.LightningStrikeLastDistance o.LightningStrikeLastDistanceIndoor
    LightningStrikeLastEpoch := ov o.LightningStrikeLastEpoch o.LightningStrikeLastEpochIndoor
    PressureTrend := ovStr o.PressureTrend o.PressureTrendIndoor
    RelativeHumidity := ov o.RelativeHumidity o.RelativeHumidityIndoor
    SeaLevelPressure := ov o.SeaLevelPressure o.SeaLevelPressureIndoor
    StationPressure := ov o.StationPressure o.StationPressureIndoor
    WetBulbTemperature := ov o.WetBulbTemperature o.WetBulbTemperatureIndoor
    WindChill := ov o.WindChill o.WindChillIndoor }

/-- The all-zero observation: every numeric field holds `0`, every string
field holds `""` (the Go zero values a fresh `observation` struct starts
with). -/
def obs0 : observation where
  AirDensity := 0
  AirDensityIndoor := 0
  AirTemperature := 0
  AirTemperatureIndoor := 0
  BarometricPressure := 0
  BarometricPressureIndoor := 0
  Brightness := 0
  DeltaT := 0
  DeltaTIndoor := 0
  DewPoint := 0
  DewPointIndoor := 0
  FeelsLike := 0
  FeelsLikeIndoor := 0
  HeatIndex := 0
  HeatIndexIndoor := 0
  LightningStrikeCount := 0
  LightningStrikeCountIndoor := 0
  LightningStrikeCountLast1hr := 0
  LightningStrikeCountLast1hrIndoor := 0
  LightningStrikeCountLast3hr := 0
  LightningStrikeCountLast3hrIndoor := 0
  LightningStrikeLastDistance := 0
  LightningStrikeLastDistanceIndoor := 0
  LightningStrikeLastEpoch := 0
  LightningStrikeLastEpochIndoor := 0
  Precip := 0
  PrecipAccumLast1hr := 0
  PrecipAccumLocalDay := 0
  PrecipAccumLocalYesterday := 0
  PrecipAccumLocalYesterdayFinal := 0
  PrecipAnalysisTypeYesterday := 0
  PrecipMinutesLocalDay := 0
  PrecipMinutesLocalYesterday := 0
  PrecipMinutesLocalYesterdayFinal := 0
  PressureTrend := ""
  PressureTrendIndoor := ""
  RelativeHumidity := 0
  RelativeHumidityIndoor := 0
  SeaLevelPressure := 0
  SeaLevelPressureIndoor := 0
  SolarRadiation := 0
  StationPressure := 0
  StationPressureIndoor := 0
  Timestamp := 0
  Uv := 0
  WetBulbTemperature := 0
  WetBulbTemperatureIndoor := 0
  WindAvg := 0
  WindChill := 0
  WindChillIndoor := 0
  WindDirection := 0
  WindGust := 0
  WindLull := 0

/-- An indoor override: `ov` returns the indoor value when it is non-zero. -/
theorem ov_of_ne_zero {base ind : Rat} (h : ind ≠ 0) : ov base ind = ind := by
  simp [ov, h]

/-- No indoor override: `ov` keeps the base value when the indoor value is
zero. -/
theorem ov_of_eq_zero {base ind : Rat} (h : ind = 0) : ov base ind = base := by
  simp [ov, h]

/-- Overlaying twice with the same indoor value is the same as overlaying
once. -/
theorem ov_idem (base ind : Rat) : ov (ov base ind) ind = ov base ind := by
  by_cases h : ind = 0 <;> simp [ov, h]

/-- String version of `ov_idem`. -/
theorem ovStr_idem (base ind : String) : ovStr (ovStr base ind) ind = ovStr base ind := by
  by_cases h : ind = "" <;> simp [ovStr, h]

/-- String version of `ov_of_eq_zero`: an empty indoor string does not
override. -/
theorem ovStr_of_empty {base ind : String} (h : ind = "") : ovStr base ind = base := by
  simp [ovStr, h]

/-- An observation whose only non-zero fields are the text pair, with distinct
base and indoor values. -/
def obsTextEx : observation :=
  { obs0 with PressureTrend := "falling", PressureTrendIndoor := "rising" }

/-- C1 counterexample: `mapIndoor` does modify the text field
`pressure_trend` when `pressure_trend_indoor` is non-empty, because Go's
reflective `IsZero` check treats a non-empty string exactly like a non-zero
float and the loop does not special-case strings. -/
theorem mapIndoor_modifies_text :
    ¬ ((mapIndoor obsTextEx).PressureTrend = obsTextEx.PressureTrend) := by
  decide

/-- C1 (amended): `mapIndoor` leaves `pressure_trend` unmodified exactly when
its indoor counterpart is the empty string; when `pressure_trend_indoor` is
non-empty it overwrites `pressure_trend` with that indoor value, just as for
numeric fields.  The indoor text field itself is never modified. -/
theorem mapIndoor_text_rule (o : observation) :
    (mapIndoor o).PressureTrend
        = (if o.PressureTrendIndoor = "" then o.PressureTrend else o.PressureTrendIndoor)
      ∧ (mapIndoor o).PressureTrendIndoor = o.PressureTrendIndoor :=
  ⟨rfl, rfl⟩

/-- C2: for every base numeric field with a declared indoor counterpart, a
non-zero indoor value overwrites the base field in the resolved record. -/
theorem mapIndoor_indoor_override (o : observation) :
    (o.AirDensityIndoor ≠ 0 → (mapIndoor o).AirDensity = o.AirDensityIndoor)
    ∧ (o.AirTemperatureIndoor ≠ 0 → (mapIndoor o).AirTemperature = o.AirTemperatureIndoor)
    ∧ (o.BarometricPressureIndoor ≠ 0 →
        (mapIndoor o).BarometricPressure = o.BarometricPressureIndoor)
    ∧ (o.DeltaTIndoor ≠ 0 → (mapIndoor o).DeltaT = o.DeltaTIndoor)
    ∧ (o.DewPointIndoor ≠ 0 → (mapIndoor o).DewPoint = o.DewPointIndoor)
    ∧ (o.FeelsLikeIndoor ≠ 0 → (mapIndoor o).FeelsLike = o.FeelsLikeIndoor)
    ∧ (o.HeatIndexIndoor ≠ 0 → (mapIndoor o).HeatIndex = o.HeatIndexIndoor)
    ∧ (o.LightningStrikeCountIndoor ≠ 0 →
        (mapIndoor o).LightningStrikeCount = o.LightningStrikeCountIndoor)
    ∧ (o.LightningStrikeCountLast1hrIndoor ≠ 0 →
        (mapIndoor o).LightningStrikeCountLast1hr = o.LightningStrikeCountLast1hrIndoor)
    ∧ (o.LightningStrikeCountLast3hrIndoor ≠ 0 →
        (mapIndoor o).LightningStrikeCountLast3hr = o.LightningStrikeCountLast3hrIndoor)
    ∧ (o.LightningStrikeLastDistanceIndoor ≠ 0 →
        (mapIndoor o).LightningStrikeLastDistance = o.LightningStrikeLastDistanceIndoor)
    ∧ (o.LightningStrikeLastEpochIndoor ≠ 0 →
        (mapIndoor o).LightningStrikeLastEpoch = o.LightningStrikeLastEpochIndoor)
    ∧ (o.RelativeHumidityIndoor ≠ 0 →
        (mapIndoor o).RelativeHumidity = o.RelativeHumidityIndoor)
    ∧ (o.SeaLevelPressureIndoor ≠ 0 →
        (mapIndoor o).SeaLevelPressure = o.SeaLevelPressureIndoor)
    ∧ (o.StationPressureIndoor ≠ 0 → (mapIndoor o).StationPressure = o.StationPressureIndoor)
    ∧ (o.WetBulbTemperatureIndoor ≠ 0 →
        (mapIndoor o).WetBulbTemperature = o.WetBulbTemperatureIndoor)
    ∧ (o.WindChillIndoor ≠ 0 → (mapIndoor o).WindChill = o.WindChillIndoor) :=
  ⟨ov_of_ne_zero, ov_of_ne_zero, ov_of_ne_zero, ov_of_ne_zero, ov_of_ne_zero,
   ov_of_ne_zero, ov_of_ne_zero, ov_of_ne_zero, ov_of_ne_zero, ov_of_ne_zero,
   ov_of_ne_zero, ov_of_ne_zero, ov_of_ne_zero, ov_of_ne_zero, ov_of_ne_zero,
   ov_of_ne_zero, ov_of_ne_zero⟩

/-- The record from the spec's override example: base `AirTemperature = 10`
with indoor counterpart `25`. -/
def obsOverrideEx : observation :=
  { obs0 with AirTemperature := 10, AirTemperatureIndoor := 25 }

/-- C2 witness: on the spec's concrete example the non-zero indoor value wins. -/
theorem mapIndoor_indoor_override_witness :
    obsOverrideEx.AirTemperatureIndoor ≠ 0
      ∧ (mapIndoor obsOverrideEx).AirTemperature = 25 :=
  ⟨by decide, (mapIndoor_indoor_override obsOverrideEx).2.1 (by decide)⟩

/-- C3: a zero indoor counterpart leaves the base field unchanged, field by
field; and when every indoor field holds its Go zero value, `mapIndoor` is the
identity on the whole record. -/
theorem mapIndoor_zero_indoor (o : observation) :
    ((o.AirDensityIndoor = 0 → (mapIndoor o).AirDensity = o.AirDensity)
      ∧ (o.AirTemperatureIndoor = 0 → (mapIndoor o).AirTemperature = o.AirTemperature)
      ∧ (o.BarometricPressureIndoor = 0 →
          (mapIndoor o).BarometricPressure = o.BarometricPressure)
      ∧ (o.DeltaTIndoor = 0 → (mapIndoor o).DeltaT = o.DeltaT)
      ∧ (o.DewPointIndoor = 0 → (mapIndoor o).DewPoint = o.DewPoint)
      ∧ (o.FeelsLikeIndoor = 0 → (mapIndoor o).FeelsLike = o.FeelsLike)
      ∧ (o.HeatIndexIndoor = 0 → (mapIndoor o).HeatIndex = o.HeatIndex)
      ∧ (o.LightningStrikeCountIndoor = 0 →
          (mapIndoor o).LightningStrikeCount = o.LightningStrikeCount)
      ∧ (o.LightningStrikeCountLast1hrIndoor = 0 →
          (mapIndoor o).LightningStrikeCountLast1hr = o.LightningStrikeCountLast1hr)
      ∧ (o.LightningStrikeCountLast3hrIndoor = 0 →
          (mapIndoor o).LightningStrikeCountLast3hr = o.LightningStrikeCountLast3hr)
      ∧ (o.LightningStrikeLastDistanceIndoor = 0 →
          (mapIndoor o).LightningStrikeLastDistance = o.LightningStrikeLastDistance)
      ∧ (o.LightningStrikeLastEpochIndoor = 0 →
          (mapIndoor o).LightningStrikeLastEpoch = o.LightningStrikeLastEpoch)
      ∧ (o.RelativeHumidityIndoor = 0 →
          (mapIndoor o).RelativeHumidity = o.RelativeHumidity)
      ∧ (o.SeaLevelPressureIndoor = 0 →
          (mapIndoor o).SeaLevelPressure = o.SeaLevelPressure)
      ∧ (o.StationPressureIndoor = 0 → (mapIndoor o).StationPressure = o.StationPressure)
      ∧ (o.WetBulbTemperatureIndoor = 0 →
          (mapIndoor o).WetBulbTemperature = o.WetBulbTemperature)
      ∧ (o.WindChillIndoor = 0 → (mapIndoor o).WindChill = o.WindChill))
    ∧ ((o.AirDensityIndoor = 0 ∧ o.AirTemperatureIndoor = 0
        ∧ o.BarometricPressureIndoor = 0 ∧ o.DeltaTIndoor = 0 ∧ o.DewPointIndoor = 0
        ∧ o.FeelsLikeIndoor = 0 ∧ o.HeatIndexIndoor = 0 ∧ o.LightningStrikeCountIndoor = 0
        ∧ o.LightningStrikeCountLast1hrIndoor = 0 ∧ o.LightningStrikeCountLast3hrIndoor = 0
        ∧ o.LightningStrikeLastDistanceIndoor = 0 ∧ o.LightningStrikeLastEpochIndoor = 0
        ∧ o.PressureTrendIndoor = "" ∧ o.RelativeHumidityIndoor = 0
        ∧ o.SeaLevelPressureIndoor = 0 ∧ o.StationPressureIndoor = 0
        ∧ o.WetBulbTemperatureIndoor = 0 ∧ o.WindChillIndoor = 0) →
      mapIndoor o = o) := by
  refine ⟨⟨fun h => ov_of_eq_zero h, fun h => ov_of_eq_zero h, fun h => ov_of_eq_zero h,
    fun h => ov_of_eq_zero h, fun h => ov_of_eq_zero h, fun h => ov_of_eq_zero h,
    fun h => ov_of_eq_zero h, fun h => ov_of_eq_zero h, fun h => ov_of_eq_zero h,
    fun h => ov_of_eq_zero h, fun h => ov_of_eq_zero h, fun h => ov_of_eq_zero h,
    fun h => ov_of_eq_zero h, fun h => ov_of_eq_zero h, fun h => ov_of_eq_zero h,
    fun h => ov_of_eq_zero h, fun h => ov_of_eq_zero h⟩, ?_⟩
  rintro ⟨h1, h2, h3, h4, h5, h6, h7, h8, h9, h10, h11, h12, h13, h14, h15, h16, h17, h18⟩
  apply observation.extAll <;>
    first
      | rfl
      | exact ov_of_eq_zero h1 | exact ov_of_eq_zero h2 | exact ov_of_eq_zero h3
      | exact ov_of_eq_zero h4 | exact ov_of_eq_zero h5 | exact ov_of_eq_zero h6
      | exact ov_of_eq_zero h7 | exact ov_of_eq_zero h8 | exact ov_of_eq_zero h9
      | exact ov_of_eq_zero h10 | exact ov_of_eq_zero h11 | exact ov_of_eq_zero h12
      | exact ovStr_of_empty h13 | exact ov_of_eq_zero h14 | exact ov_of_eq_zero h15
      | exact ov_of_eq_zero h16 | exact ov_of_eq_zero h17 | exact ov_of_eq_zero h18

/-- C3 witness: the all-zero record is a fixed point of `mapIndoor`. -/
theorem mapIndoor_zero_indoor_witness :
    obs0.AirDensityIndoor = 0 ∧ mapIndoor obs0 = obs0 :=
  ⟨rfl, (mapIndoor_zero_indoor obs0).2 (by decide)⟩

/-- C4: `mapIndoor` never modifies an indoor-suffixed field, and never
modifies a field that has no declared indoor counterpart. -/
theorem mapIndoor_frame (o : observation) :
    (mapIndoor o).AirDensityIndoor = o.AirDensityIndoor
    ∧ (mapIndoor o).AirTemperatureIndoor = o.AirTemperatureIndoor
    ∧ (mapIndoor o).BarometricPressureIndoor = o.BarometricPressureIndoor
    ∧ (mapIndoor o).DeltaTIndoor = o.DeltaTIndoor
    ∧ (mapIndoor o).DewPointIndoor = o.DewPointIndoor
    ∧ (mapIndoor o).FeelsLikeIndoor = o.FeelsLikeIndoor
    ∧ (mapIndoor o).HeatIndexIndoor = o.HeatIndexIndoor
    ∧ (mapIndoor o).LightningStrikeCountIndoor = o.LightningStrikeCountIndoor
    ∧ (mapIndoor o).LightningStrikeCountLast1hrIndoor = o.LightningStrikeCountLast1hrIndoor
    ∧ (mapIndoor o).LightningStrikeCountLast3hrIndoor = o.LightningStrikeCountLast3hrIndoor
    ∧ (mapIndoor o).LightningStrikeLastDistanceIndoor = o.LightningStrikeLastDistanceIndoor
    ∧ (mapIndoor o).LightningStrikeLastEpochIndoor = o.LightningStrikeLastEpochIndoor
    ∧ (mapIndoor o).PressureTrendIndoor = o.PressureTrendIndoor
    ∧ (mapIndoor o).RelativeHumidityIndoor = o.RelativeHumidityIndoor
    ∧ (mapIndoor o).SeaLevelPressureIndoor = o.SeaLevelPressureIndoor
    ∧ (mapIndoor o).StationPressureIndoor = o.StationPressureIndoor
    ∧ (mapIndoor o).WetBulbTemperatureIndoor = o.WetBulbTemperatureIndoor
    ∧ (mapIndoor o).WindChillIndoor = o.WindChillIndoor
    ∧ (mapIndoor o).Brightness = o.Brightness
    ∧ (mapIndoor o).Precip = o.Precip
    ∧ (mapIndoor o).PrecipAccumLast1hr = o.PrecipAccumLast1hr
    ∧ (mapIndoor o).PrecipAccumLocalDay = o.PrecipAccumLocalDay
    ∧ (mapIndoor o).PrecipAccumLocalYesterday = o.PrecipAccumLocalYesterday
    ∧ (mapIndoor o).PrecipAccumLocalYesterdayFinal = o.PrecipAccumLocalYesterdayFinal
    ∧ (mapIndoor o).PrecipAnalysisTypeYesterday = o.PrecipAnalysisTypeYesterday
    ∧ (mapIndoor o).PrecipMinutesLocalDay = o.PrecipMinutesLocalDay
    ∧ (mapIndoor o).PrecipMinutesLocalYesterday = o.PrecipMinutesLocalYesterday
    ∧ (mapIndoor o).PrecipMinutesLocalYesterdayFinal = o.PrecipMinutesLocalYesterdayFinal
    ∧ (mapIndoor o).SolarRadiation = o.SolarRadiation
    ∧ (mapIndoor o).Timestamp = o.Timestamp
    ∧ (mapIndoor o).Uv = o.Uv
    ∧ (mapIndoor o).WindAvg = o.WindAvg
    ∧ (mapIndoor o).WindDirection = o.WindDirection
    ∧ (mapIndoor o).WindGust = o.WindGust
    ∧ (mapIndoor o).WindLull = o.WindLull :=
  ⟨rfl, rfl, rfl, rfl, rfl, rfl, rfl, rfl, rfl, rfl, rfl, rfl, rfl, rfl, rfl, rfl, rfl,
   rfl, rfl, rfl, rfl, rfl, rfl, rfl, rfl, rfl, rfl, rfl, rfl, rfl, rfl, rfl, rfl, rfl,
   rfl⟩

/-- C5: the overlay resolver is idempotent: resolving an already-resolved
record changes nothing. -/
theorem mapIndoor_idempotent (o : observation) :
    mapIndoor (mapIndoor o) = mapIndoor o := by
  apply observation.extAll <;> first | rfl | exact ov_idem _ _ | exact ovStr_idem _ _

/-- The decoded API response (src/main.go lines 110-120): station identity
fields, the `status.status_code` integer, and the observation array. -/
structure response where
  StationId : Int
  StationName : String
  PublicName : String
  Latitude : Rat
  Longitude : Rat
  Timezone : String
  Elevation : Rat
  Status : Int
  Obs : List observation

/-- The character for a single decimal digit. -/
def digitChar (n : Nat) : Char := Char.ofNat (48 + n % 10)

/-- Fuel-driven accumulator producing the decimal digits of a natural
number, most significant first. -/
def natDigitsAux : Nat → Nat → List Char → List Char
  | 0, _, acc => acc
  | fuel + 1, n, acc =>
    if n < 10 then digitChar n :: acc
    else natDigitsAux fuel (n / 10) (digitChar (n % 10) :: acc)

/-- Decimal digits of a natural number, most significant first. -/
def natDigitChars (n : Nat) : List Char := natDigitsAux (n + 1) n []

/-- Decimal rendering of a natural number. -/
def natDigitStr (n : Nat) : String := String.mk (natDigitChars n)

/-- Model of Go `strconv.Itoa`: signed decimal rendering of an integer. -/
def intToStr (i : Int) : String :=
  (if i < 0 then "-" else "") ++ natDigitStr i.natAbs

/-- Fuel-driven p-adic valuation: how many times `p` divides `n`. -/
def pvalAux : Nat → Nat → Nat → Nat
  | _, 0, _ => 0
  | p, fuel + 1, n => if n % p = 0 ∧ 0 < n then 1 + pvalAux p fuel (n / p) else 0

/-- How many times `p` divides `n` (for `p ≥ 2`, `n ≥ 1`). -/
def pval (p n : Nat) : Nat := pvalAux p n n

/-- Splits `n` into `(m, t)` with `n = m * 10 ^ t` and `m` not divisible by
ten (fuel-driven; `stripZeros 0 = (0, 0)`). -/
def stripZerosAux : Nat → Nat → Nat × Nat
  | 0, n => (n, 0)
  | fuel + 1, n =>
    if n % 10 = 0 ∧ 0 < n then
      let r := stripZerosAux fuel (n / 10)
      (r.1, r.2 + 1)
    else (n, 0)

/-- Strip the trailing decimal zeros of `n`, counting them. -/
def stripZeros (n : Nat) : Nat × Nat := stripZerosAux n n

/-- Pad a digit list to at least two digits with a leading zero (Go prints
scientific exponents with a minimum of two digits). -/
def pad2 (l : List Char) : List Char := if l.length < 2 then '0' :: l else l

/-- Mantissa characters (sign included) and exponent characters (sign and
padding included) of the scientific rendering of a rational: the significant
decimal digits `d1 d2 ... dm` of `q` give mantissa `d1.d2...dm` and exponent
`e` with `|q| = d1.d2...dm * 10 ^ e`. -/
def sciParts (q : Rat) : List Char × List Char :=
  if q = 0 then (['0'], ['+', '0', '0'])
  else
    let k := max (pval 2 q.den) (pval 5 q.den)
    let scaled := q.num.natAbs * 10 ^ k / q.den
    let m := (stripZeros scaled).1
    let t := (stripZeros scaled).2
    let ds := natDigitChars m
    let mant : List Char :=
      match ds with
      | [] => ['0']
      | [c] => [c]
      | c :: rest => c :: '.' :: rest
    let sign : List Char := if q < 0 then ['-'] else []
    let e : Int := (ds.length : Int) - 1 + (t : Int) - (k : Int)
    (sign ++ mant, (if e < 0 then ['-'] else ['+']) ++ pad2 (natDigitChars e.natAbs))

/-- Model of Go `strconv.FormatFloat(x, 'E', -1, 64)` as used in
`parseLabels` (src/main.go lines 161-164): shortest scientific notation
`d.dddE±dd`.  The float64 is modelled by the decimal value the API sent; on
such values (finite decimals of at most float64 precision, where Go's
shortest round-trip digits are exactly the sent digits) the model agrees
with `strconv`, e.g. both render `45` as `"4.5E+01"` and `0.5` as
`"5E-01"`. -/
def formatFloatE (q : Rat) : String :=
  String.mk (sciParts q).1 ++ "E" ++ String.mk (sciParts q).2

/-- `parseLabels` (src/main.go lines 156-166): builds the label map from the
station envelope.  The Go map is modelled as an association list in
assignment order. -/
def response.parseLabels (r : response) : List (String × String) :=
  [("station_id", intToStr r.StationId),
   ("station_name", r.StationName),
   ("public_name", r.PublicName),
   ("latitude", formatFloatE r.Latitude),
   ("longitude", formatFloatE r.Longitude),
   ("timezone", r.Timezone),
   ("elevation", formatFloatE r.Elevation)]

example : formatFloatE 45 = "4.5E+01" := by decide
example : formatFloatE (mkRat 1 2) = "5E-01" := by decide
example : formatFloatE 0 = "0E+00" := by decide
example : formatFloatE (mkRat (-459) 10) = "-4.59E+01" := by decide
example : formatFloatE 100 = "1E+02" := by decide
example : intToStr 42 = "42" := by decide
example : intToStr (-7) = "-7" := by decide

/-- The metric name and value projection of every numeric base field of
`observation` (the fields the registry exposes: numeric fields that are not
indoor-suffixed), in declaration order with their JSON names. -/
def numericBaseFields : List (String × (observation → Rat)) :=
  [("air_density", observation.AirDensity),
   ("air_temperature", observation.AirTemperature),
   ("barometric_pressure", observation.BarometricPressure),
   ("brightness", observation.Brightness),
   ("delta_t", observation.DeltaT),
   ("dew_point", observation.DewPoint),
   ("feels_like", observation.FeelsLike),
   ("heat_index", observation.HeatIndex),
   ("lightning_strike_count", observation.LightningStrikeCount),
   ("lightning_strike_count_last_1hr", observation.LightningStrikeCountLast1hr),
   ("lightning_strike_count_last_3hr", observation.LightningStrikeCountLast3hr),
   ("lightning_strike_last_distance", observation.LightningStrikeLastDistance),
   ("lightning_strike_last_epoch", observation.LightningStrikeLastEpoch),
   ("precip", observation.Precip),
   ("precip_accum_last_1hr", observation.PrecipAccumLast1hr),
   ("precip_accum_local_day", observation.PrecipAccumLocalDay),
   ("precip_accum_local_yesterday", observation.PrecipAccumLocalYesterday),
   ("precip_accum_local_yesterday_final", observation.PrecipAccumLocalYesterdayFinal),
   ("precip_analysis_type_yesterday", observation.PrecipAnalysisTypeYesterday),
   ("precip_minutes_local_day", observation.PrecipMinutesLocalDay),
   ("precip_minutes_local_yesterday", observation.PrecipMinutesLocalYesterday),
   ("precip_minutes_local_yesterday_final", observation.PrecipMinutesLocalYesterdayFinal),
   ("relative_humidity", observation.RelativeHumidity),
   ("sea_level_pressure", observation.SeaLevelPressure),
   ("solar_radiation", observation.SolarRadiation),
   ("station_pressure", observation.StationPressure),
   ("timestamp", observation.Timestamp),
   ("uv", observation.Uv),
   ("wet_bulb_temperature", observation.WetBulbTemperature),
   ("wind_avg", observation.WindAvg),
   ("wind_chill", observation.WindChill),
   ("wind_direction", observation.WindDirection),
   ("wind_gust", observation.WindGust),
   ("wind_lull", observation.WindLull)]

/-- The state of the metric registry visible to a scraper: the current value
of each series and the current label values shared by all series. -/
structure MetricsState where
  values : List (String × Rat)
  labelValues : List (String × String)

/-- Modelled from the spec: `MetricsMap.SetAll` is defined in a repository
file that is not under src/ (only its call site `metrics.SetAll(o, labels)`
at src/main.go line 180 is).  Per spec section 4.3, `apply` sets every
registry series to the record's value for that field and replaces the label
values wholesale; each call fully supersedes the previous state, so the
prior state is not consulted. -/
def setAll (_st : MetricsState) (o : observation) (l : List (String × String)) :
    MetricsState :=
  { values := numericBaseFields.map fun p => (p.1, p.2 o)
    labelValues := l }

/-- The mutable state of the refresh loop: the registry (`metrics` global)
and the `labels` global variable. -/
structure LoopState where
  metrics : MetricsState
  labelsVar : List (String × String)

/-- One iteration of the `getDatas` loop body after a successful fetch
(src/main.go lines 176-181): `labels = r.parseLabels()`, then, only when the
observation array is non-empty, overlay element `[0]` with `mapIndoor` and
push it into the registry with `SetAll`. -/
def getDatasBody (st : LoopState) (r : response) : LoopState :=
  let l := r.parseLabels
  match r.Obs with
  | [] => { metrics := st.metrics, labelsVar := l }
  | o :: _ => { metrics := setAll st.metrics (mapIndoor o) l, labelsVar := l }

/-- The `getDatas` loop (src/main.go lines 169-184) run over a sequence of
fetch outcomes: each cycle either gets a decoded response (`Except.ok`) or a
fetch/decode error (`Except.error`).  An error hits `log.Fatal`, modelled by
halting with the fatal message and discarding every later cycle; a success
runs the loop body and continues. -/
def runLoop : LoopState → List (Except String response) → LoopState × Option String
  | st, [] => (st, none)
  | st, Except.error e :: _ => (st, some e)
  | st, Except.ok r :: rest => runLoop (getDatasBody st r) rest

/-- C6: a cycle whose response carries zero observations leaves the metric
registry untouched: no set operation runs, every series keeps the value and
label values it had after the previous cycle. -/
theorem empty_obs_keeps_metrics (st : LoopState) (r : response) (h : r.Obs = []) :
    (getDatasBody st r).metrics = st.metrics := by
  simp [getDatasBody, h]

/-- A registry state left by an earlier successful cycle, used as a concrete
starting point. -/
def stateEx : LoopState :=
  { metrics := { values := [("air_density", 3)], labelValues := [("station_id", "7")] }
    labelsVar := [("station_id", "7")] }

/-- A response with an empty observation array. -/
def respEmptyEx : response :=
  { StationId := 42, StationName := "Home", PublicName := "H", Latitude := 45,
    Longitude := 5, Timezone := "UTC", Elevation := 100, Status := 0, Obs := [] }

/-- C6 witness: a concrete empty-observations cycle keeps the registry. -/
theorem empty_obs_keeps_metrics_witness :
    respEmptyEx.Obs = [] ∧ (getDatasBody stateEx respEmptyEx).metrics = stateEx.metrics :=
  ⟨rfl, empty_obs_keeps_metrics stateEx respEmptyEx rfl⟩

/-- C7: the refresh cycle consumes only observation element `[0]`: two
responses that agree on the station identity fields and on the head of the
observation array produce the same loop state, whatever their remaining
observations (and status code) are. -/
theorem first_obs_determines_update (st : LoopState) (r1 r2 : response)
    (hid : r1.StationId = r2.StationId) (hname : r1.StationName = r2.StationName)
    (hpub : r1.PublicName = r2.PublicName) (hlat : r1.Latitude = r2.Latitude)
    (hlon : r1.Longitude = r2.Longitude) (htz : r1.Timezone = r2.Timezone)
    (hel : r1.Elevation = r2.Elevation) (hobs : r1.Obs.head? = r2.Obs.head?) :
    getDatasBody st r1 = getDatasBody st r2 := by
  have hl : r1.parseLabels = r2.parseLabels := by
    simp [response.parseLabels, hid, hname, hpub, hlat, hlon, htz, hel]
  cases h1 : r1.Obs with
  | nil =>
    cases h2 : r2.Obs with
    | nil => simp [getDatasBody, h1, h2, hl]
    | cons o2 t2 => rw [h1, h2] at hobs; simp at hobs
  | cons o t =>
    cases h2 : r2.Obs with
    | nil => rw [h1, h2] at hobs; simp at hobs
    | cons o2 t2 =>
      rw [h1, h2] at hobs
      simp only [List.head?_cons, Option.some.injEq] at hobs
      simp [getDatasBody, h1, h2, hl, hobs]

/-- A response with one observation. -/
def respOneObsEx : response :=
  { StationId := 42, StationName := "Home", PublicName := "H", Latitude := 45,
    Longitude := 5, Timezone := "UTC", Elevation := 100, Status := 0, Obs := [obs0] }

/-- The same station envelope with a different status code and an extra
trailing observation. -/
def respTwoObsEx : response :=
  { respOneObsEx with Status := 1, Obs := [obs0, { obs0 with Uv := 7 }] }

/-- C7 witness: the concrete pair of responses differing only past element
`[0]` yields identical loop states. -/
theorem first_obs_determines_update_witness :
    respOneObsEx.Obs.head? = respTwoObsEx.Obs.head?
      ∧ getDatasBody stateEx respOneObsEx = getDatasBody stateEx respTwoObsEx :=
  ⟨rfl, first_obs_determines_update stateEx respOneObsEx respTwoObsEx
    rfl rfl rfl rfl rfl rfl rfl rfl⟩

/-- C8: a cycle whose fetch/decode step fails halts the process fatally —
the remaining cycles are never run, there is no retry and no skipped cycle —
while a cycle whose fetch succeeds runs the body and continues the loop. -/
theorem fetch_error_is_fatal :
    (∀ (st : LoopState) (e : String) (rest : List (Except String response)),
        runLoop st (Except.error e :: rest) = (st, some e))
    ∧ (∀ (st : LoopState) (r : response) (rest : List (Except String response)),
        runLoop st (Except.ok r :: rest) = runLoop (getDatasBody st r) rest) :=
  ⟨fun _ _ _ => rfl, fun _ _ _ => rfl⟩

/-- C9: `parseLabels` produces exactly the seven label keys `station_id`,
`station_name`, `public_name`, `latitude`, `longitude`, `timezone`,
`elevation`, with `station_id` the decimal rendering of the integer station
ID (42 becomes "42"). -/
theorem parseLabels_keys (r : response) :
    r.parseLabels.map Prod.fst
        = ["station_id", "station_name", "public_name", "latitude", "longitude",
           "timezone", "elevation"]
      ∧ r.parseLabels.lookup "station_id" = some (intToStr r.StationId)
      ∧ intToStr 42 = "42" :=
  ⟨rfl, rfl, by decide⟩

/-- C10: `parseLabels` renders latitude, longitude and elevation with the
scientific-notation formatter: every rendering has the shape
`mantissa ++ "E" ++ exponent`, and 45 is rendered "4.5E+01", not the plain
decimal "45". -/
theorem parseLabels_sci_format (r : response) :
    r.parseLabels.lookup "latitude" = some (formatFloatE r.Latitude)
      ∧ r.parseLabels.lookup "longitude" = some (formatFloatE r.Longitude)
      ∧ r.parseLabels.lookup "elevation" = some (formatFloatE r.Elevation)
      ∧ (∀ q : Rat, ∃ m e, formatFloatE q = m ++ "E" ++ e)
      ∧ formatFloatE 45 = "4.5E+01"
      ∧ formatFloatE 45 ≠ "45" :=
  ⟨rfl, rfl, rfl,
   fun q => ⟨String.mk (sciParts q).1, String.mk (sciParts q).2, rfl⟩,
   by decide, by decide⟩

end TempestExporter
